import Mathlib

/-!
Verification of `voice_switch.py`: a shallow embedding in Lean 4 of the
voice-command smart-plug controller, together with theorems settling the
specification's claims about it.

Modelling conventions:
  * Python strings are Lean `String`s; `kw in text` is embedded as
    `py_in kw text`, a literal substring check on the character lists.
  * Python `str.lower()` / `str.strip()` are embedded as `py_lower` /
    `py_strip` (ASCII case folding and whitespace trimming, which is all
    the fixed keyword table exercises).
  * The external `kasa.SmartPlug` library is modelled by a fault
    environment `Faults`: each primitive call (constructor, `update()`,
    `turn_on()`, `turn_off()`) either succeeds or raises a given
    exception message.  Python exceptions are `Except.error`; a Python
    `try/except` block is the explicit `match` on the embedded body.
  * Network side effects are recorded in a `Trace` of `Action`s, and
    `print` output in a list of log strings, so that the theorems can
    speak about which device calls were issued and what was logged.
-/

namespace VoiceSwitch

/-- Character-list test that `k` begins the list `t` (used to embed
Python substring containment). -/
def beginsWith : List Char → List Char → Bool
  | _, [] => true
  | [], _ :: _ => false
  | c :: cs, k :: ks => c == k && beginsWith cs ks

/-- Character-list test that `k` occurs contiguously somewhere in `t`. -/
def hasSubChars : List Char → List Char → Bool
  | [], k => beginsWith [] k
  | c :: cs, k => beginsWith (c :: cs) k || hasSubChars cs k

/-- Embedding of the Python expression `kw in text`: literal substring
containment of `kw` in `text`. -/
def py_in (kw text : String) : Bool :=
  hasSubChars text.data kw.data

/-- Embedding of Python `str.lower()` (ASCII case folding suffices for
the keyword table of this program). -/
def py_lower (s : String) : String :=
  String.mk (s.data.map Char.toLower)

/-- Embedding of Python `str.strip()`: remove leading and trailing
whitespace characters. -/
def py_strip (s : String) : String :=
  String.mk (((s.data.dropWhile Char.isWhitespace).reverse.dropWhile
      Char.isWhitespace).reverse)

/-- Keyword group for the ON command (source line 33). -/
def CMD_ON : List String := ["turn on", "switch on", "on"]

/-- Keyword group for the OFF command (source line 34). -/
def CMD_OFF : List String := ["turn off", "switch off", "off"]

/-- Keyword group for the TOGGLE command (source line 35). -/
def CMD_TOGGLE : List String := ["toggle", "switch"]

/-- The fixed plug address (source line 29). -/
def PLUG_IP : String := "192.168.0.1"

/-- Embedding of `contains_keyword(text, keywords)` (source lines 77-81):
iterate over the keywords and return `true` on the first one that is a
substring of `text`. -/
def contains_keyword (text : String) : List String → Bool
  | [] => false
  | kw :: rest => if py_in kw text then true else contains_keyword text rest

/-- The three command identifiers of the keyword table. -/
inductive Command
  | on
  | off
  | toggle
deriving DecidableEq, Repr

/-- The command matcher of `voice_loop` (source lines 110-118): the
if/elif chain checking the ON group, then the OFF group, then the TOGGLE
group, returning the command of the first group with a matching keyword,
or `none` when no group matches. -/
def matchCommand (text : String) : Option Command :=
  if contains_keyword text CMD_ON then some Command.on
  else if contains_keyword text CMD_OFF then some Command.off
  else if contains_keyword text CMD_TOGGLE then some Command.toggle
  else none

/-- Network-visible actions of the device layer: creating a plug
session for an address, the state-fetching `update()` call, and the two
state-changing commands. -/
inductive Action
  | connect (ip : String)
  | update
  | turnOn
  | turnOff
deriving DecidableEq, Repr

/-- The sequence of device calls issued during one operation. -/
abbrev Trace := List Action

/-- Fault model for the external `kasa.SmartPlug` library: for each
primitive call, `none` means the call succeeds and `some e` means the
call raises an exception with message `e`. -/
structure Faults where
  construct : Option String
  update : Option String
  turn_on : Option String
  turn_off : Option String
deriving DecidableEq, Repr

/-- The all-succeeding fault environment. -/
def noFaults : Faults := ⟨none, none, none, none⟩

/-- Body of the `try` block of `kasa_turn_on` (source lines 47-51):
construct the plug, `await plug.update()`, `await plug.turn_on()`, then
print the success line.  Returns the trace of issued calls, the device
on/off state after the operation (`dev` is the state before), and
either the produced log lines or the raised exception. -/
def kasa_turn_on_body (ip : String) (f : Faults) (dev : Bool) :
    Trace × Bool × Except String (List String) :=
  match f.construct with
  | some e => ([], dev, Except.error e)
  | none =>
    match f.update with
    | some e => ([Action.connect ip, Action.update], dev, Except.error e)
    | none =>
      match f.turn_on with
      | some e =>
        ([Action.connect ip, Action.update, Action.turnOn], dev,
          Except.error e)
      | none =>
        ([Action.connect ip, Action.update, Action.turnOn], true,
          Except.ok ["[KASA] Turned ON " ++ ip])

/-- Embedding of `kasa_turn_on(ip)` (source lines 46-53): the `try`
body wrapped in `except Exception as e`, which prints the error line
and returns normally.  The `Except` return type records whether any
exception escapes the function. -/
def kasa_turn_on (ip : String) (f : Faults) (dev : Bool) :
    Except String (Trace × List String × Bool) :=
  match kasa_turn_on_body ip f dev with
  | (tr, d, Except.ok logs) => Except.ok (tr, logs, d)
  | (tr, d, Except.error e) =>
      Except.ok (tr, ["[KASA] Error turning on: " ++ e], d)

/-- Body of the `try` block of `kasa_turn_off` (source lines 56-60). -/
def kasa_turn_off_body (ip : String) (f : Faults) (dev : Bool) :
    Trace × Bool × Except String (List String) :=
  match f.construct with
  | some e => ([], dev, Except.error e)
  | none =>
    match f.update with
    | some e => ([Action.connect ip, Action.update], dev, Except.error e)
    | none =>
      match f.turn_off with
      | some e =>
        ([Action.connect ip, Action.update, Action.turnOff], dev,
          Except.error e)
      | none =>
        ([Action.connect ip, Action.update, Action.turnOff], false,
          Except.ok ["[KASA] Turned OFF " ++ ip])

/-- Embedding of `kasa_turn_off(ip)` (source lines 55-62). -/
def kasa_turn_off (ip : String) (f : Faults) (dev : Bool) :
    Except String (Trace × List String × Bool) :=
  match kasa_turn_off_body ip f dev with
  | (tr, d, Except.ok logs) => Except.ok (tr, logs, d)
  | (tr, d, Except.error e) =>
      Except.ok (tr, ["[KASA] Error turning off: " ++ e], d)

/-- Body of the `try` block of `kasa_toggle` (source lines 65-73):
construct the plug, `await plug.update()`, then branch on the fetched
`plug.is_on` (which after a successful update reflects the device state
`dev`): turn off and print "Toggled OFF" if it is on, turn on and print
"Toggled ON" otherwise. -/
def kasa_toggle_body (ip : String) (f : Faults) (dev : Bool) :
    Trace × Bool × Except String (List String) :=
  match f.construct with
  | some e => ([], dev, Except.error e)
  | none =>
    match f.update with
    | some e => ([Action.connect ip, Action.update], dev, Except.error e)
    | none =>
      if dev then
        match f.turn_off with
        | some e =>
          ([Action.connect ip, Action.update, Action.turnOff], dev,
            Except.error e)
        | none =>
          ([Action.connect ip, Action.update, Action.turnOff], false,
            Except.ok ["[KASA] Toggled OFF " ++ ip])
      else
        match f.turn_on with
        | some e =>
          ([Action.connect ip, Action.update, Action.turnOn], dev,
            Except.error e)
        | none =>
          ([Action.connect ip, Action.update, Action.turnOn], true,
            Except.ok ["[KASA] Toggled ON " ++ ip])

/-- Embedding of `kasa_toggle(ip)` (source lines 64-75). -/
def kasa_toggle (ip : String) (f : Faults) (dev : Bool) :
    Except String (Trace × List String × Bool) :=
  match kasa_toggle_body ip f dev with
  | (tr, d, Except.ok logs) => Except.ok (tr, logs, d)
  | (tr, d, Except.error e) =>
      Except.ok (tr, ["[KASA] Error toggling: " ++ e], d)

/-- Observable outcome of processing one finalized recognizer result in
the main loop: which device operations were dispatched (ON/OFF/TOGGLE),
the device calls issued, the log lines printed, and the device state
afterwards. -/
structure StepOut where
  cmds : List Command
  trace : Trace
  logs : List String
  dev : Bool
deriving DecidableEq, Repr

/-- Normalization applied to every recognizer result before matching:
the Python `.lower().strip()` of source line 103. -/
def normalize (raw : String) : String :=
  py_strip (py_lower raw)

/-- Embedding of the per-result body of the `while` loop of
`voice_loop` (source lines 103-118): normalize the recognized text with
`.lower().strip()`, skip empty text, print "Recognized:", then dispatch
through the if/elif chain to exactly one kasa operation on `PLUG_IP`,
or print "No known command in:" when no keyword group matches.  An
exception escaping a kasa call would propagate as `Except.error` and
abort the loop. -/
def process_result (raw : String) (f : Faults) (dev : Bool) :
    Except String StepOut :=
  if normalize raw = "" then Except.ok ⟨[], [], [], dev⟩
  else if contains_keyword (normalize raw) CMD_ON then
    match kasa_turn_on PLUG_IP f dev with
    | Except.ok (tr, logs, d) =>
        Except.ok ⟨[Command.on], tr,
          ("Recognized: " ++ normalize raw) :: logs, d⟩
    | Except.error e => Except.error e
  else if contains_keyword (normalize raw) CMD_OFF then
    match kasa_turn_off PLUG_IP f dev with
    | Except.ok (tr, logs, d) =>
        Except.ok ⟨[Command.off], tr,
          ("Recognized: " ++ normalize raw) :: logs, d⟩
    | Except.error e => Except.error e
  else if contains_keyword (normalize raw) CMD_TOGGLE then
    match kasa_toggle PLUG_IP f dev with
    | Except.ok (tr, logs, d) =>
        Except.ok ⟨[Command.toggle], tr,
          ("Recognized: " ++ normalize raw) :: logs, d⟩
    | Except.error e => Except.error e
  else
    Except.ok ⟨[], [],
      ["Recognized: " ++ normalize raw,
        "No known command in: " ++ normalize raw], dev⟩

/-- The main loop run over a list of finalized recognizer results,
threading the device state: each iteration processes one result; an
exception escaping an iteration would abort the remainder of the run. -/
def voice_loop_run (f : Faults) : Bool → List String →
    Except String (List StepOut × Bool)
  | dev, [] => Except.ok ([], dev)
  | dev, r :: rs =>
    match process_result r f dev with
    | Except.error e => Except.error e
    | Except.ok out =>
      match voice_loop_run f out.dev rs with
      | Except.error e => Except.error e
      | Except.ok (outs, d) => Except.ok (out :: outs, d)

/-- Startup events of `voice_loop` (source lines 84-90): constructing a
`Model` from the path, and constructing the `KaldiRecognizer`. -/
inductive StartupEvent
  | loadModel
  | buildRecognizer
deriving DecidableEq, Repr

/-- How `voice_loop` startup ends: an exception propagates out of
`voice_loop` (aborting the process with an error report, since `main`
catches only `KeyboardInterrupt`), or the `return` branch of the model
check runs, or the recognizer loop is entered. -/
inductive StartupResult
  | raised (e : String)
  | earlyReturn
  | entered
deriving DecidableEq, Repr

/-- Behaviour of the external `vosk.Model` constructor for the
configured path: it yields a model object, or raises an exception with
message `e` when the model cannot be loaded. -/
inductive LoadBehavior
  | ok
  | raises (e : String)
deriving DecidableEq, Repr

/-- Truthiness of a constructed `vosk.Model` object in `not
Model(model_path)`: a Python object with neither a bool conversion nor
a length method is always truthy, so the check is `false` on every
successfully constructed model. -/
def modelTruthy : Bool := true

/-- Embedding of the startup section of `voice_loop` (source lines
84-90): `if not Model(model_path): print(...); return`, then `model =
Model(model_path)` and `rec = KaldiRecognizer(model, SAMPLE_RATE)`.
The `Model` constructor raises when the model cannot be loaded, and
both constructor calls see the same path, hence the same behaviour.
Returns the startup events, the printed log lines, and the outcome. -/
def voice_loop_startup (load : LoadBehavior) :
    List StartupEvent × List String × StartupResult :=
  match load with
  | LoadBehavior.raises e => ([StartupEvent.loadModel], [], StartupResult.raised e)
  | LoadBehavior.ok =>
    if !modelTruthy then
      ([StartupEvent.loadModel],
        ["Model not found or cannot be loaded. Check MODEL_PATH."],
        StartupResult.earlyReturn)
    else
      ([StartupEvent.loadModel, StartupEvent.loadModel,
        StartupEvent.buildRecognizer], [], StartupResult.entered)

/-- A fault environment in which the `SmartPlug` constructor raises. -/
def errFaults : Faults := ⟨some "network unreachable", none, none, none⟩

/-- The `turn_on` wrapper never lets an exception escape. -/
theorem kasa_turn_on_ok (ip : String) (f : Faults) (dev : Bool) :
    ∃ r, kasa_turn_on ip f dev = Except.ok r := by
  unfold kasa_turn_on
  rcases hb : kasa_turn_on_body ip f dev with ⟨tr, d, e | logs⟩
  · exact ⟨_, rfl⟩
  · exact ⟨_, rfl⟩

/-- The `turn_off` wrapper never lets an exception escape. -/
theorem kasa_turn_off_ok (ip : String) (f : Faults) (dev : Bool) :
    ∃ r, kasa_turn_off ip f dev = Except.ok r := by
  unfold kasa_turn_off
  rcases hb : kasa_turn_off_body ip f dev with ⟨tr, d, e | logs⟩
  · exact ⟨_, rfl⟩
  · exact ⟨_, rfl⟩

/-- The `toggle` wrapper never lets an exception escape. -/
theorem kasa_toggle_ok (ip : String) (f : Faults) (dev : Bool) :
    ∃ r, kasa_toggle ip f dev = Except.ok r := by
  unfold kasa_toggle
  rcases hb : kasa_toggle_body ip f dev with ⟨tr, d, e | logs⟩
  · exact ⟨_, rfl⟩
  · exact ⟨_, rfl⟩

/-- Processing one recognizer result never lets an exception escape,
whatever the fault environment. -/
theorem process_result_ok (raw : String) (f : Faults) (dev : Bool) :
    ∃ out, process_result raw f dev = Except.ok out := by
  unfold process_result
  split_ifs with h1 h2 h3 h4
  · exact ⟨_, rfl⟩
  · obtain ⟨⟨tr, logs, d⟩, hk⟩ := kasa_turn_on_ok PLUG_IP f dev
    rw [hk]
    exact ⟨_, rfl⟩
  · obtain ⟨⟨tr, logs, d⟩, hk⟩ := kasa_turn_off_ok PLUG_IP f dev
    rw [hk]
    exact ⟨_, rfl⟩
  · obtain ⟨⟨tr, logs, d⟩, hk⟩ := kasa_toggle_ok PLUG_IP f dev
    rw [hk]
    exact ⟨_, rfl⟩
  · exact ⟨_, rfl⟩

/-- C2: each device operation catches any exception raised by the
underlying plug calls, logs the error detail, and returns normally; no
exception propagates out of the device layer, so the main loop
processes every queued result whatever the fault environment. -/
theorem device_layer_catches_errors (ip e : String) (f : Faults)
    (dev : Bool) (texts : List String) :
    ((kasa_turn_on_body ip f dev).2.2 = Except.error e →
      kasa_turn_on ip f dev = Except.ok ((kasa_turn_on_body ip f dev).1,
        ["[KASA] Error turning on: " ++ e],
        (kasa_turn_on_body ip f dev).2.1))
    ∧ ((kasa_turn_off_body ip f dev).2.2 = Except.error e →
      kasa_turn_off ip f dev = Except.ok ((kasa_turn_off_body ip f dev).1,
        ["[KASA] Error turning off: " ++ e],
        (kasa_turn_off_body ip f dev).2.1))
    ∧ ((kasa_toggle_body ip f dev).2.2 = Except.error e →
      kasa_toggle ip f dev = Except.ok ((kasa_toggle_body ip f dev).1,
        ["[KASA] Error toggling: " ++ e],
        (kasa_toggle_body ip f dev).2.1))
    ∧ ∃ outs d, voice_loop_run f dev texts = Except.ok (outs, d)
        ∧ outs.length = texts.length := by
  refine ⟨?_, ?_, ?_, ?_⟩
  · intro h
    rcases hb : kasa_turn_on_body ip f dev with ⟨tr, d, r⟩
    rw [hb] at h
    simp only at h
    subst h
    simp [kasa_turn_on, hb]
  · intro h
    rcases hb : kasa_turn_off_body ip f dev with ⟨tr, d, r⟩
    rw [hb] at h
    simp only at h
    subst h
    simp [kasa_turn_off, hb]
  · intro h
    rcases hb : kasa_toggle_body ip f dev with ⟨tr, d, r⟩
    rw [hb] at h
    simp only at h
    subst h
    simp [kasa_toggle, hb]
  · induction texts generalizing dev with
    | nil => exact ⟨[], dev, rfl, rfl⟩
    | cons r rs ih =>
      obtain ⟨out, hout⟩ := process_result_ok r f dev
      obtain ⟨outs, d, hrun, hlen⟩ := ih out.dev
      exact ⟨out :: outs, d, by simp [voice_loop_run, hout, hrun],
        by simp [hlen]⟩

/-- Witness for `device_layer_catches_errors`: with a raising plug
constructor, each of the three operations returns normally with the
error detail logged, and a two-result loop run still processes both
results. -/
theorem device_layer_catches_errors_witness :
    kasa_turn_on "192.168.0.1" errFaults true =
      Except.ok ([], ["[KASA] Error turning on: network unreachable"], true)
    ∧ kasa_turn_off "192.168.0.1" errFaults true =
      Except.ok ([], ["[KASA] Error turning off: network unreachable"], true)
    ∧ kasa_toggle "192.168.0.1" errFaults true =
      Except.ok ([], ["[KASA] Error toggling: network unreachable"], true)
    ∧ ∃ outs d,
        voice_loop_run errFaults true ["turn on the light", "turn off now"] =
          Except.ok (outs, d)
        ∧ outs.length = ["turn on the light", "turn off now"].length := by
  have h := device_layer_catches_errors "192.168.0.1" "network unreachable"
    errFaults true ["turn on the light", "turn off now"]
  exact ⟨h.1 rfl, h.2.1 rfl, h.2.2.1 rfl, h.2.2.2⟩

/-- C4: under a fault-free environment, `kasa_toggle` branches on the
fetched device state: device on yields the turn-off call and the
"Toggled OFF" log, device off yields the turn-on call and the
"Toggled ON" log. -/
theorem kasa_toggle_branches (ip : String) (f : Faults)
    (hc : f.construct = none) (hu : f.update = none)
    (hn : f.turn_on = none) (hf : f.turn_off = none) :
    kasa_toggle ip f true =
      Except.ok ([Action.connect ip, Action.update, Action.turnOff],
        ["[KASA] Toggled OFF " ++ ip], false)
    ∧ kasa_toggle ip f false =
      Except.ok ([Action.connect ip, Action.update, Action.turnOn],
        ["[KASA] Toggled ON " ++ ip], true) := by
  constructor <;> simp [kasa_toggle, kasa_toggle_body, hc, hu, hn, hf]

/-- Witness for `kasa_toggle_branches` at the configured plug address
with the all-succeeding fault environment. -/
theorem kasa_toggle_branches_witness :
    kasa_toggle "192.168.0.1" noFaults true =
      Except.ok ([Action.connect "192.168.0.1", Action.update,
        Action.turnOff], ["[KASA] Toggled OFF 192.168.0.1"], false)
    ∧ kasa_toggle "192.168.0.1" noFaults false =
      Except.ok ([Action.connect "192.168.0.1", Action.update,
        Action.turnOn], ["[KASA] Toggled ON 192.168.0.1"], true) :=
  kasa_toggle_branches "192.168.0.1" noFaults rfl rfl rfl rfl

/-- C7: whenever the plug constructor and the state fetch succeed, each
of the three operations issues exactly the sequence: fresh connection,
then the `update()` state fetch, then the state-changing command — the
fetch happens unconditionally before the command, for on and off as
well as toggle. -/
theorem device_ops_update_before_command (ip : String) (f : Faults)
    (dev : Bool) (hc : f.construct = none) (hu : f.update = none) :
    (kasa_turn_on_body ip f dev).1 =
      [Action.connect ip, Action.update, Action.turnOn]
    ∧ (kasa_turn_off_body ip f dev).1 =
      [Action.connect ip, Action.update, Action.turnOff]
    ∧ (kasa_toggle_body ip f dev).1 =
      [Action.connect ip, Action.update,
        if dev then Action.turnOff else Action.turnOn] := by
  refine ⟨?_, ?_, ?_⟩
  · simp only [kasa_turn_on_body, hc, hu]
    cases ht : f.turn_on <;> simp [ht]
  · simp only [kasa_turn_off_body, hc, hu]
    cases ht : f.turn_off <;> simp [ht]
  · simp only [kasa_toggle_body, hc, hu]
    cases dev
    · cases ht : f.turn_on <;> simp [ht]
    · cases ht : f.turn_off <;> simp [ht]

/-- Witness for `device_ops_update_before_command` at the configured
plug address, device currently on, no faults. -/
theorem device_ops_update_before_command_witness :
    (kasa_turn_on_body "192.168.0.1" noFaults true).1 =
      [Action.connect "192.168.0.1", Action.update, Action.turnOn]
    ∧ (kasa_turn_off_body "192.168.0.1" noFaults true).1 =
      [Action.connect "192.168.0.1", Action.update, Action.turnOff]
    ∧ (kasa_toggle_body "192.168.0.1" noFaults true).1 =
      [Action.connect "192.168.0.1", Action.update,
        if true then Action.turnOff else Action.turnOn] :=
  device_ops_update_before_command "192.168.0.1" noFaults true rfl rfl

/-- C1: the matcher checks ON, then OFF, then TOGGLE, and returns the
command of the first group with a keyword occurring as a substring of
the text; in particular any text containing an ON keyword resolves to
the ON command, regardless of OFF or TOGGLE keywords also present. -/
theorem matchCommand_priority (text : String) :
    (contains_keyword text CMD_ON = true →
      matchCommand text = some Command.on)
    ∧ (contains_keyword text CMD_ON = false →
        contains_keyword text CMD_OFF = true →
        matchCommand text = some Command.off)
    ∧ (contains_keyword text CMD_ON = false →
        contains_keyword text CMD_OFF = false →
        contains_keyword text CMD_TOGGLE = true →
        matchCommand text = some Command.toggle)
    ∧ (contains_keyword text CMD_ON = false →
        contains_keyword text CMD_OFF = false →
        contains_keyword text CMD_TOGGLE = false →
        matchCommand text = none) := by
  refine ⟨?_, ?_, ?_, ?_⟩
  · intro h
    simp [matchCommand, h]
  · intro h1 h2
    simp [matchCommand, h1, h2]
  · intro h1 h2 h3
    simp [matchCommand, h1, h2, h3]
  · intro h1 h2 h3
    simp [matchCommand, h1, h2, h3]

/-- Witness for `matchCommand_priority`: the text
"turn on and turn off and toggle" contains keywords of all three
groups and resolves to ON; "turn off please" resolves to OFF;
"switch" alone resolves to TOGGLE; "hello there" matches nothing. -/
theorem matchCommand_priority_witness :
    matchCommand "turn on and turn off and toggle" = some Command.on
    ∧ matchCommand "turn off please" = some Command.off
    ∧ matchCommand "switch" = some Command.toggle
    ∧ matchCommand "hello there" = none := by
  refine ⟨?_, ?_, ?_, ?_⟩
  · exact (matchCommand_priority "turn on and turn off and toggle").1
      (by decide)
  · exact (matchCommand_priority "turn off please").2.1 (by decide)
      (by decide)
  · exact (matchCommand_priority "switch").2.2.1 (by decide) (by decide)
      (by decide)
  · exact (matchCommand_priority "hello there").2.2.2 (by decide)
      (by decide) (by decide)

/-- C8: keyword matching is literal substring matching with no
word-boundary check: "noon" contains none of the multi-word ON phrases,
and no space-delimited occurrence of "on", yet it contains the bare
keyword "on" and therefore resolves to the ON command. -/
theorem noon_resolves_to_on :
    py_in "turn on" "noon" = false
    ∧ py_in "switch on" "noon" = false
    ∧ py_in " on" "noon" = false
    ∧ py_in "on " "noon" = false
    ∧ py_in "on" "noon" = true
    ∧ contains_keyword "noon" CMD_ON = true
    ∧ matchCommand "noon" = some Command.on := by
  decide

/-- Lowercasing a whitespace character leaves it unchanged. -/
theorem toLower_of_whitespace (c : Char) (h : c.isWhitespace = true) :
    c.toLower = c := by
  simp [Char.isWhitespace] at h
  rcases h with ((h | h) | h) | h <;> subst h <;> decide

/-- `py_lower` maps whitespace-only strings to whitespace-only
strings. -/
theorem py_lower_whitespace (raw : String)
    (h : ∀ c ∈ raw.data, c.isWhitespace = true) :
    ∀ c ∈ (py_lower raw).data, c.isWhitespace = true := by
  intro c hc
  simp only [py_lower] at hc
  obtain ⟨a, ha, rfl⟩ := List.mem_map.mp hc
  rw [toLower_of_whitespace a (h a ha)]
  exact h a ha

/-- `py_strip` maps whitespace-only strings to the empty string. -/
theorem py_strip_all_whitespace (s : String)
    (h : ∀ c ∈ s.data, c.isWhitespace = true) :
    py_strip s = "" := by
  unfold py_strip
  have h1 : s.data.dropWhile Char.isWhitespace = [] :=
    List.dropWhile_eq_nil_iff.mpr fun x hx => h x hx
  rw [h1]
  rfl

/-- C5: a recognizer result that is empty or consists only of
whitespace normalizes to the empty string, and its processing step
dispatches no command, issues no device call, and prints nothing. -/
theorem whitespace_only_no_action (raw : String) (f : Faults)
    (dev : Bool) (h : ∀ c ∈ raw.data, c.isWhitespace = true) :
    normalize raw = ""
    ∧ process_result raw f dev = Except.ok ⟨[], [], [], dev⟩ := by
  have hn : normalize raw = "" :=
    py_strip_all_whitespace _ (py_lower_whitespace raw h)
  refine ⟨hn, ?_⟩
  unfold process_result
  rw [hn]
  simp

/-- Witness for `whitespace_only_no_action` on a three-space result. -/
theorem whitespace_only_no_action_witness :
    normalize "   " = ""
    ∧ process_result "   " noFaults true = Except.ok ⟨[], [], [], true⟩ :=
  whitespace_only_no_action "   " noFaults true (by decide)

/-- C6: a recognizer result whose normalization is non-empty and
matches no keyword of any group dispatches no command and issues no
device call; the step prints the recognized text and the
"No known command in:" line carrying that text. -/
theorem unrecognized_logged_no_device (raw : String) (f : Faults)
    (dev : Bool) (hne : normalize raw ≠ "")
    (h1 : contains_keyword (normalize raw) CMD_ON = false)
    (h2 : contains_keyword (normalize raw) CMD_OFF = false)
    (h3 : contains_keyword (normalize raw) CMD_TOGGLE = false) :
    process_result raw f dev =
      Except.ok ⟨[], [],
        ["Recognized: " ++ normalize raw,
          "No known command in: " ++ normalize raw], dev⟩ := by
  simp [process_result, hne, h1, h2, h3]

/-- Witness for `unrecognized_logged_no_device` on "hello there". -/
theorem unrecognized_logged_no_device_witness :
    process_result "hello there" noFaults true =
      Except.ok ⟨[], [],
        ["Recognized: hello there", "No known command in: hello there"],
        true⟩ :=
  unrecognized_logged_no_device "hello there" noFaults true (by decide)
    (by decide) (by decide) (by decide)

/-- C10: processing one recognizer result dispatches at most one device
operation: the if/elif chain is mutually exclusive, so even a text
containing keywords of several groups triggers a single command. -/
theorem at_most_one_device_op (raw : String) (f : Faults) (dev : Bool)
    (out : StepOut) (h : process_result raw f dev = Except.ok out) :
    out.cmds.length ≤ 1 := by
  unfold process_result at h
  split_ifs at h with h1 h2 h3 h4
  · simp only [Except.ok.injEq] at h
    subst h
    simp
  · obtain ⟨⟨tr, logs, d⟩, hk⟩ := kasa_turn_on_ok PLUG_IP f dev
    rw [hk] at h
    simp only [Except.ok.injEq] at h
    subst h
    simp
  · obtain ⟨⟨tr, logs, d⟩, hk⟩ := kasa_turn_off_ok PLUG_IP f dev
    rw [hk] at h
    simp only [Except.ok.injEq] at h
    subst h
    simp
  · obtain ⟨⟨tr, logs, d⟩, hk⟩ := kasa_toggle_ok PLUG_IP f dev
    rw [hk] at h
    simp only [Except.ok.injEq] at h
    subst h
    simp
  · simp only [Except.ok.injEq] at h
    subst h
    simp

/-- Witness for `at_most_one_device_op` on a text containing ON, OFF
and TOGGLE keywords at once: only the ON operation is dispatched. -/
theorem at_most_one_device_op_witness :
    (StepOut.mk [Command.on]
      [Action.connect "192.168.0.1", Action.update, Action.turnOn]
      ["Recognized: turn on and turn off and toggle",
        "[KASA] Turned ON 192.168.0.1"] true).cmds.length ≤ 1 :=
  at_most_one_device_op "turn on and turn off and toggle" noFaults false
    ⟨[Command.on],
      [Action.connect "192.168.0.1", Action.update, Action.turnOn],
      ["Recognized: turn on and turn off and toggle",
        "[KASA] Turned ON 192.168.0.1"], true⟩ rfl

/-- C3: when the model cannot be loaded the `Model` constructor raises,
the exception propagates out of `voice_loop` (startup aborts, carrying
the error for the process-level report), and the recognizer loop is
never entered. -/
theorem model_load_failure_aborts (e : String) :
    voice_loop_startup (LoadBehavior.raises e) =
      ([StartupEvent.loadModel], [], StartupResult.raised e)
    ∧ (voice_loop_startup (LoadBehavior.raises e)).2.2 ≠
        StartupResult.entered := by
  refine ⟨rfl, ?_⟩
  simp [voice_loop_startup]

/-- C9: on a loadable model, startup constructs the model object twice
from the same path — once for the truthiness check and once, after it,
as the instance handed to the recognizer — before entering the loop. -/
theorem model_loaded_twice :
    voice_loop_startup LoadBehavior.ok =
      ([StartupEvent.loadModel, StartupEvent.loadModel,
        StartupEvent.buildRecognizer], [], StartupResult.entered)
    ∧ (voice_loop_startup LoadBehavior.ok).1.count
        StartupEvent.loadModel = 2 := by
  constructor <;> rfl

end VoiceSwitch
